import Mathlib

/-!
Verification of the launch dispatcher of `src/accelerate/commands/launch.py`.

The Python module builds a child command line and environment for one of
three strategies (single process, multi-GPU, TPU) and runs it.  We embed the
module shallowly: the argparse namespace becomes the structure `Args`, the
process environment becomes an association list `EnvMap`, and every external
effect (the interpreter path `sys.executable`, `os.environ`, the existence of
the default config file, the config loaded by `LaunchConfig.from_json_file`,
the subprocess exit code, and `Path.resolve`) is a field of the `World`
record.  Each launcher returns its Python result (normal return or raised
exception) together with the list of observable `Event`s it performed, in
order.
-/

/-- The distributed-type discriminant imported from `..config`
(`DistributedType`); `launch.py` compares the loaded config's
`distributed_type` against `MULTI_GPU` and `TPU`. -/
inductive DistributedType where
  | NO
  | MULTI_GPU
  | TPU
deriving DecidableEq, Repr

/-- The persisted configuration record (`LaunchConfig` from `.config`),
with exactly the fields `launch_command` reads from it:
`distributed_type`, `num_processes` and `fp16`. -/
structure LaunchConfig where
  distributed_type : DistributedType
  num_processes : Nat
  fp16 : Bool
deriving DecidableEq, Repr

/-- The argparse namespace built by `launch_command_parser`, together with
the multi-node topology fields (`main_process_ip`, `main_process_port`,
`num_machines`, `machine_rank`) that `multi_gpu_launcher` reads from it. -/
structure Args where
  config_file : Option String
  multi_gpu : Bool
  tpu : Bool
  fp16 : Bool
  num_processes : Option Nat
  training_script : String
  training_script_args : List String
  main_process_ip : Option String
  main_process_port : Nat
  num_machines : Nat
  machine_rank : Nat
deriving DecidableEq, Repr

/-- A process environment, modelling a Python `dict` of variables as an
association list without duplicate keys. -/
abbrev EnvMap : Type := List (String × String)

/-- Python dict assignment `env[k] = v`: replace the binding of `k` when one
exists, otherwise append a new binding. -/
def envSet (env : EnvMap) (k v : String) : EnvMap :=
  if env.any (fun p => p.1 == k) then
    env.map (fun p => if p.1 == k then (k, v) else p)
  else
    env ++ [(k, v)]

/-- Python dict lookup `env.get(k)`. -/
def envGet : EnvMap → String → Option String
  | [], _ => none
  | (k, v) :: rest, key => if k == key then some v else envGet rest key

/-- Python `str` applied to a boolean: `str(True) = "True"`. -/
def pyStrBool (b : Bool) : String :=
  if b then "True" else "False"

/-- Python `str` applied to an optional integer: `str(None) = "None"`. -/
def pyStrOptNat : Option Nat → String
  | none => "None"
  | some n => toString n

/-- Split a character list at every occurrence of the separator, keeping
empty pieces, as Python `str.split(sep)` does. -/
def splitOnChar (c : Char) : List Char → List (List Char)
  | [] => [[]]
  | x :: xs =>
    let rest := splitOnChar c xs
    if x = c then [] :: rest
    else (x :: rest.headD []) :: rest.tail

/-- Split a string at every occurrence of the separator character. -/
def splitString (c : Char) (s : String) : List String :=
  (splitOnChar c s.data).map (fun cs => String.mk cs)

/-- Join strings with a separator. -/
def joinWith (sep : String) : List String → String
  | [] => ""
  | [x] => x
  | x :: xs => x ++ sep ++ joinWith sep xs

/-- `pathlib.Path(p).parent` for POSIX-style relative paths: drop the last
path component; the parent of a bare filename is `"."`. -/
def pathParent (p : String) : String :=
  match (splitString '/' p).dropLast with
  | [] => "."
  | parts => joinWith "/" parts

/-- `pathlib.Path(p).stem`: the final path component with its last suffix
removed; a leading dot with no other dot is not a suffix. -/
def pathStem (p : String) : String :=
  let name := (splitString '/' p).getLastD p
  match splitString '.' name with
  | [] => name
  | [_] => name
  | ["", _] => name
  | parts => joinWith "." parts.dropLast

/-- The `subprocess.CalledProcessError` raised by the two subprocess
launchers: it carries the child's return code and the command list. -/
structure CalledProcessError where
  returncode : Int
  cmd : List String
deriving DecidableEq, Repr

/-- The exceptions the dispatcher can raise. -/
inductive LaunchError where
  /-- The `ValueError` raised by the sanity check in `launch_command`. -/
  | invalidConfiguration (msg : String)
  /-- A `subprocess.CalledProcessError` from a non-zero child exit. -/
  | childProcessFailure (e : CalledProcessError)
  /-- The `TypeError` Python would raise on
  `None // args.num_machines` while building the multi-GPU command. -/
  | typeError
deriving DecidableEq, Repr

/-- Observable effects of one dispatch, in program order. -/
inductive Event where
  /-- `LaunchConfig.from_json_file` was called. -/
  | configLoaded
  /-- `subprocess.Popen(cmd, env=env)` was called. -/
  | spawned (cmd : List String) (env : EnvMap)
  /-- `sys.path.append(dir)` was called. -/
  | sysPathAppended (dir : String)
  /-- `sys.argv` was overwritten with `argv`. -/
  | argvSet (argv : List String)
  /-- `xmp.spawn(mod._mp_fn, args=(), nprocs=n)` was called for the module
  named `modName`. -/
  | tpuSpawned (modName : String) (nprocs : Option Nat)
deriving DecidableEq, Repr

/-- External inputs of one invocation: everything `launch.py` obtains from
the operating system or from modules outside this file. -/
structure World where
  /-- `sys.executable`. -/
  sysExecutable : String
  /-- `os.environ` at dispatch time. -/
  osEnviron : EnvMap
  /-- `os.path.isfile(default_config_file)`. -/
  defaultConfigFileExists : Bool
  /-- The record `LaunchConfig.from_json_file(json_file=args.config_file)`
  would return. -/
  loadedConfig : LaunchConfig
  /-- The exit code `process.wait()` observes for a child started with the
  given command and environment. -/
  run : List String → EnvMap → Int
  /-- `pathlib.Path(p).resolve()`: the OS's absolutisation of a path. -/
  resolvePath : String → String

/-- The message of the `ValueError` in `launch_command`. -/
def pickOneMsg : String :=
  "You can only pick one between `--multi_gpu` and `--tpu`."

/-- The child command of `simple_launcher`:
`[sys.executable, args.training_script] + args.training_script_args`. -/
def simple_cmd (sysExec : String) (a : Args) : List String :=
  [sysExec, a.training_script] ++ a.training_script_args

/-- The child environment used by both subprocess launchers:
`os.environ.copy()` with `USE_FP16` set to `str(args.fp16)`. -/
def childEnv (osEnv : EnvMap) (a : Args) : EnvMap :=
  envSet osEnv "USE_FP16" (pyStrBool a.fp16)

/-- Shared tail of `simple_launcher` and `multi_gpu_launcher`: copy the
environment, set `USE_FP16`, run the child, wait, and raise
`CalledProcessError` exactly when the return code is non-zero. -/
def runProcess (w : World) (a : Args) (cmd : List String) :
    Except LaunchError Unit × List Event :=
  let env := childEnv w.osEnviron a
  let rc := w.run cmd env
  (if rc = 0 then Except.ok () else
    Except.error (LaunchError.childProcessFailure ⟨rc, cmd⟩),
   [Event.spawned cmd env])

/-- `simple_launcher(args)`. -/
def simple_launcher (w : World) (a : Args) :
    Except LaunchError Unit × List Event :=
  runProcess w a (simple_cmd w.sysExecutable a)

/-- The command list built by `multi_gpu_launcher` before `Popen`.
`none` is the `TypeError` Python raises evaluating
`args.num_processes // args.num_machines` when `num_processes` is `None`
in the multi-node branch. -/
def multi_gpu_cmd (sysExec : String) (a : Args) : Option (List String) :=
  let cmd := [sysExec, "-m", "torch.distributed.launch"]
    ++ ["--nproc_per_node", pyStrOptNat a.num_processes]
  match a.main_process_ip with
  | some ip =>
    match a.num_processes with
    | none => none
    | some np =>
      some (cmd
        ++ ["--nproc_per_node", toString (np / a.num_machines),
            "--nnodes", toString a.num_machines,
            "--node_rank", toString a.machine_rank,
            "--master_addr", ip,
            "--node_rank", toString a.main_process_port]
        ++ [a.training_script] ++ a.training_script_args)
  | none =>
    some (cmd ++ ["--nproc_per_node", pyStrOptNat a.num_processes]
      ++ [a.training_script] ++ a.training_script_args)

/-- `multi_gpu_launcher(args)`. -/
def multi_gpu_launcher (w : World) (a : Args) :
    Except LaunchError Unit × List Event :=
  match multi_gpu_cmd w.sysExecutable a with
  | none => (Except.error LaunchError.typeError, [])
  | some cmd => runProcess w a cmd

/-- The `sys.argv` rewrite in `tpu_launcher`:
`[args.training_script] + args.training_script_args
 + ["--tpu_num_cores", str(args.num_processes)]`. -/
def tpu_argv (a : Args) : List String :=
  [a.training_script] ++ a.training_script_args
    ++ ["--tpu_num_cores", pyStrOptNat a.num_processes]

/-- `tpu_launcher(args)`: append the script's resolved parent directory to
`sys.path`, import the module named by the script's stem, rewrite
`sys.argv`, and hand off to `xmp.spawn`. -/
def tpu_launcher (w : World) (a : Args) :
    Except LaunchError Unit × List Event :=
  let dir := w.resolvePath (pathParent a.training_script)
  let modName := pathStem a.training_script
  (Except.ok (),
   [Event.sysPathAppended dir,
    Event.argvSet (tpu_argv a),
    Event.tpuSpawned modName a.num_processes])

/-- The defaults-resolution block of `launch_command`: when a config file
path is given or the default config file exists, load it and fill the
fields the caller left unset (the mode flags when neither was passed,
`num_processes` when `None`, `fp16` when false); otherwise default
`num_processes` to 1. -/
def resolveDefaults (a : Args) (defaultFileExists : Bool)
    (defaults : LaunchConfig) : Args × List Event :=
  if a.config_file.isSome || defaultFileExists then
    let a1 :=
      if !a.multi_gpu && !a.tpu then
        { a with
          multi_gpu := defaults.distributed_type = DistributedType.MULTI_GPU,
          tpu := defaults.distributed_type = DistributedType.TPU }
      else a
    let a2 :=
      if a1.num_processes.isNone then
        { a1 with num_processes := some defaults.num_processes }
      else a1
    let a3 := if !a2.fp16 then { a2 with fp16 := defaults.fp16 } else a2
    (a3, [Event.configLoaded])
  else
    (if a.num_processes.isNone then { a with num_processes := some 1 }
     else a, [])

/-- The three launch strategies. -/
inductive Strategy where
  | multiGpu
  | tpuStrat
  | simple
deriving DecidableEq, Repr

/-- The `if args.multi_gpu / elif args.tpu / else` chain at the end of
`launch_command`. -/
def selectStrategy (a : Args) : Strategy :=
  if a.multi_gpu then Strategy.multiGpu
  else if a.tpu then Strategy.tpuStrat
  else Strategy.simple

/-- `launch_command(args)`: sanity check, defaults resolution, then exactly
one launcher. -/
def launch_command (w : World) (a : Args) :
    Except LaunchError Unit × List Event :=
  if a.multi_gpu && a.tpu then
    (Except.error (LaunchError.invalidConfiguration pickOneMsg), [])
  else
    let r := resolveDefaults a w.defaultConfigFileExists w.loadedConfig
    let s :=
      match selectStrategy r.1 with
      | Strategy.multiGpu => multi_gpu_launcher w r.1
      | Strategy.tpuStrat => tpu_launcher w r.1
      | Strategy.simple => simple_launcher w r.1
    (s.1, r.2 ++ s.2)

/-! ## Concrete fixtures used by witnesses and counterexamples -/

/-- A concrete parent environment. -/
def testEnv : EnvMap := [("PATH", "/usr/bin"), ("HOME", "/home/user")]

/-- A concrete persisted configuration selecting multi-GPU mode. -/
def testConfig : LaunchConfig :=
  { distributed_type := DistributedType.MULTI_GPU
    num_processes := 4
    fp16 := true }

/-- A concrete world in which every spawned child exits with status 2 and no
default config file exists. -/
def testWorld : World :=
  { sysExecutable := "/usr/bin/python3"
    osEnviron := testEnv
    defaultConfigFileExists := false
    loadedConfig := testConfig
    run := fun _ _ => 2
    resolvePath := fun p => "/work/" ++ p }

/-- A concrete single-process invocation: `train.py --epochs 3`. -/
def simpleArgs : Args :=
  { config_file := none
    multi_gpu := false
    tpu := false
    fp16 := true
    num_processes := some 4
    training_script := "train.py"
    training_script_args := ["--epochs", "3"]
    main_process_ip := none
    main_process_port := 0
    num_machines := 1
    machine_rank := 0 }

/-- A concrete multi-node multi-GPU invocation: 8 processes over 2 machines,
coordinator at 10.0.0.1:29500. -/
def multiNodeArgs : Args :=
  { simpleArgs with
    multi_gpu := true
    num_processes := some 8
    num_machines := 2
    machine_rank := 0
    main_process_ip := some "10.0.0.1"
    main_process_port := 29500 }

/-- A concrete invocation passing both `--multi_gpu` and `--tpu`. -/
def bothFlagsArgs : Args :=
  { simpleArgs with multi_gpu := true, tpu := true }

/-! ## Environment lemmas -/

theorem envGet_map_set (env : EnvMap) (k v : String)
    (h : env.any (fun p => p.1 == k) = true) :
    envGet (env.map (fun p => if p.1 == k then (k, v) else p)) k = some v := by
  induction env with
  | nil => simp at h
  | cons hd tl ih =>
    obtain ⟨k', v'⟩ := hd
    rw [List.map_cons]
    by_cases hk : (k' == k) = true
    · rw [if_pos hk]
      simp [envGet]
    · rw [if_neg hk]
      simp only [List.any_cons, Bool.or_eq_true] at h
      rcases h with h | h
      · exact absurd h hk
      · simp only [envGet]
        rw [if_neg hk]
        exact ih h

theorem envGet_append_set (env : EnvMap) (k v : String)
    (h : env.any (fun p => p.1 == k) = false) :
    envGet (env ++ [(k, v)]) k = some v := by
  induction env with
  | nil => simp [envGet]
  | cons hd tl ih =>
    obtain ⟨k', v'⟩ := hd
    simp only [List.any_cons, Bool.or_eq_false_iff] at h
    rw [List.cons_append]
    simp only [envGet]
    rw [if_neg]
    · exact ih h.2
    · simp [h.1]

/-- Looking up the key just set by `envSet` returns the value just set. -/
theorem envGet_envSet (env : EnvMap) (k v : String) :
    envGet (envSet env k v) k = some v := by
  unfold envSet
  by_cases h : env.any (fun p => p.1 == k) = true
  · simp only [h, if_true]
    exact envGet_map_set env k v h
  · rw [Bool.not_eq_true] at h
    simp only [h, Bool.false_eq_true, if_false]
    exact envGet_append_set env k v h

/-! ## Claim theorems -/

/-- C1: when both the multi-accelerator flag and the TPU flag are set,
`launch_command` raises the `ValueError` (InvalidConfiguration) at once:
the result is the error and the event trace is empty, so no config was
loaded (defaults resolution never ran) and no subprocess was created. -/
theorem C1_both_flags_fail_fast (w : World) (a : Args)
    (h1 : a.multi_gpu = true) (h2 : a.tpu = true) :
    launch_command w a =
      (Except.error (LaunchError.invalidConfiguration pickOneMsg), []) := by
  simp [launch_command, h1, h2]

/-- Witness for C1 at a concrete invocation with both flags set. -/
theorem C1_both_flags_fail_fast_witness :
    launch_command testWorld bothFlagsArgs =
      (Except.error (LaunchError.invalidConfiguration pickOneMsg), []) :=
  C1_both_flags_fail_fast testWorld bothFlagsArgs rfl rfl

/-- C4: the single-process child command is exactly the interpreter path,
the training script path, then the script arguments verbatim and in order,
and the child environment is the parent environment's copy with `USE_FP16`
bound to the stringified boolean. -/
theorem C4_simple_cmd_and_env (w : World) (a : Args) :
    (simple_launcher w a).2 =
      [Event.spawned
        ([w.sysExecutable, a.training_script] ++ a.training_script_args)
        (envSet w.osEnviron "USE_FP16" (pyStrBool a.fp16))]
    ∧ envGet (childEnv w.osEnviron a) "USE_FP16" = some (pyStrBool a.fp16) :=
  ⟨rfl, envGet_envSet w.osEnviron "USE_FP16" (pyStrBool a.fp16)⟩

/-- C8: the TPU launcher appends the resolved parent directory of the
script to the module search path, imports the module named by the script's
stem, and rewrites the argument vector to the script path, the script
arguments verbatim, and an appended `--tpu_num_cores` flag with the process
count; for `foo/bar.py` the directory added is the resolved `foo` and the
module imported is `bar`. -/
theorem C8_tpu_effects (w : World) (a : Args) :
    (tpu_launcher w a).2 =
      [Event.sysPathAppended (w.resolvePath (pathParent a.training_script)),
       Event.argvSet ([a.training_script] ++ a.training_script_args
         ++ ["--tpu_num_cores", pyStrOptNat a.num_processes]),
       Event.tpuSpawned (pathStem a.training_script) a.num_processes]
    ∧ pathParent "foo/bar.py" = "foo" ∧ pathStem "foo/bar.py" = "bar" :=
  ⟨rfl, rfl, rfl⟩

/-- C10: the multi-GPU command contains `--nproc_per_node` twice: first
with the total process count, then again with the total when no main
process address is given (single-node) or with the total divided by the
machine count when one is (multi-node). -/
theorem C10_nproc_per_node_duplicated (sysExec : String) (a : Args)
    (np : Nat) (h : a.num_processes = some np) :
    (a.main_process_ip = none →
      multi_gpu_cmd sysExec a =
        some ([sysExec, "-m", "torch.distributed.launch",
               "--nproc_per_node", toString np,
               "--nproc_per_node", toString np,
               a.training_script] ++ a.training_script_args))
    ∧ (∀ ip, a.main_process_ip = some ip →
      multi_gpu_cmd sysExec a =
        some ([sysExec, "-m", "torch.distributed.launch",
               "--nproc_per_node", toString np,
               "--nproc_per_node", toString (np / a.num_machines),
               "--nnodes", toString a.num_machines,
               "--node_rank", toString a.machine_rank,
               "--master_addr", ip,
               "--node_rank", toString a.main_process_port,
               a.training_script] ++ a.training_script_args)) := by
  constructor
  · intro hip
    simp [multi_gpu_cmd, hip, h, pyStrOptNat]
  · intro ip hip
    simp [multi_gpu_cmd, hip, h, pyStrOptNat]

/-- Witness for C10 at the concrete multi-node invocation. -/
theorem C10_nproc_per_node_duplicated_witness :
    multi_gpu_cmd "/usr/bin/python3" multiNodeArgs =
      some ["/usr/bin/python3", "-m", "torch.distributed.launch",
            "--nproc_per_node", "8", "--nproc_per_node", "4",
            "--nnodes", "2", "--node_rank", "0",
            "--master_addr", "10.0.0.1", "--node_rank", "29500",
            "train.py", "--epochs", "3"] := by
  have h :=
    (C10_nproc_per_node_duplicated "/usr/bin/python3" multiNodeArgs 8
      rfl).2 "10.0.0.1" rfl
  simpa using h

/-- C3: when the child of the single-process or multi-accelerator strategy
exits with a non-zero status, the launcher raises `CalledProcessError`
carrying exactly that exit code and exactly the command list that was
executed. -/
theorem C3_child_failure_exact (w : World) (a : Args) (mcmd : List String)
    (h1 : w.run (simple_cmd w.sysExecutable a) (childEnv w.osEnviron a) ≠ 0)
    (h2 : multi_gpu_cmd w.sysExecutable a = some mcmd)
    (h3 : w.run mcmd (childEnv w.osEnviron a) ≠ 0) :
    (simple_launcher w a).1 =
      Except.error (LaunchError.childProcessFailure
        ⟨w.run (simple_cmd w.sysExecutable a) (childEnv w.osEnviron a),
         simple_cmd w.sysExecutable a⟩)
    ∧ (multi_gpu_launcher w a).1 =
      Except.error (LaunchError.childProcessFailure
        ⟨w.run mcmd (childEnv w.osEnviron a), mcmd⟩) := by
  constructor
  · simp [simple_launcher, runProcess, h1]
  · simp [multi_gpu_launcher, h2, runProcess, h3]

/-- Witness for C3: under `testWorld` every child exits with status 2, and
both launchers raise `CalledProcessError` with code 2 and the exact
command executed. -/
theorem C3_child_failure_exact_witness :
    (simple_launcher testWorld multiNodeArgs).1 =
      Except.error (LaunchError.childProcessFailure
        ⟨2, ["/usr/bin/python3", "train.py", "--epochs", "3"]⟩)
    ∧ (multi_gpu_launcher testWorld multiNodeArgs).1 =
      Except.error (LaunchError.childProcessFailure
        ⟨2, ["/usr/bin/python3", "-m", "torch.distributed.launch",
             "--nproc_per_node", "8", "--nproc_per_node", "4",
             "--nnodes", "2", "--node_rank", "0",
             "--master_addr", "10.0.0.1", "--node_rank", "29500",
             "train.py", "--epochs", "3"]⟩) := by
  have h := C3_child_failure_exact testWorld multiNodeArgs
    ["/usr/bin/python3", "-m", "torch.distributed.launch",
     "--nproc_per_node", "8", "--nproc_per_node", "4",
     "--nnodes", "2", "--node_rank", "0",
     "--master_addr", "10.0.0.1", "--node_rank", "29500",
     "train.py", "--epochs", "3"]
    (by decide) rfl (by decide)
  exact h

/-- C9: the single-process and multi-accelerator launchers return normally
exactly when the child exits with status zero; a non-zero status is the
sole cause of an exception. -/
theorem C9_raise_iff_nonzero (w : World) (a : Args) (mcmd : List String)
    (h : multi_gpu_cmd w.sysExecutable a = some mcmd) :
    ((simple_launcher w a).1 = Except.ok () ↔
      w.run (simple_cmd w.sysExecutable a) (childEnv w.osEnviron a) = 0)
    ∧ ((multi_gpu_launcher w a).1 = Except.ok () ↔
      w.run mcmd (childEnv w.osEnviron a) = 0) := by
  constructor
  · by_cases hrc :
      w.run (simple_cmd w.sysExecutable a) (childEnv w.osEnviron a) = 0 <;>
      simp [simple_launcher, runProcess, hrc]
  · by_cases hrc : w.run mcmd (childEnv w.osEnviron a) = 0 <;>
      simp [multi_gpu_launcher, h, runProcess, hrc]

/-- Witness for C9 at the concrete multi-node invocation under
`testWorld`, whose children exit with status 2. -/
theorem C9_raise_iff_nonzero_witness :
    ((simple_launcher testWorld multiNodeArgs).1 = Except.ok () ↔
      testWorld.run
        (simple_cmd testWorld.sysExecutable multiNodeArgs)
        (childEnv testWorld.osEnviron multiNodeArgs) = 0)
    ∧ ((multi_gpu_launcher testWorld multiNodeArgs).1 = Except.ok () ↔
      testWorld.run
        ["/usr/bin/python3", "-m", "torch.distributed.launch",
         "--nproc_per_node", "8", "--nproc_per_node", "4",
         "--nnodes", "2", "--node_rank", "0",
         "--master_addr", "10.0.0.1", "--node_rank", "29500",
         "train.py", "--epochs", "3"]
        (childEnv testWorld.osEnviron multiNodeArgs) = 0) :=
  C9_raise_iff_nonzero testWorld multiNodeArgs
    ["/usr/bin/python3", "-m", "torch.distributed.launch",
     "--nproc_per_node", "8", "--nproc_per_node", "4",
     "--nnodes", "2", "--node_rank", "0",
     "--master_addr", "10.0.0.1", "--node_rank", "29500",
     "train.py", "--epochs", "3"] rfl

/-- A concrete invocation leaving `num_processes` unset, with no config
file. -/
def unsetArgs : Args := { simpleArgs with num_processes := none }

/-- C5: a CLI-supplied process count survives defaults resolution
unchanged regardless of the persisted default, and persisted defaults are
applied only to fields the caller left unset: a mode flag passed on the
CLI and an fp16 flag passed on the CLI are never overridden. -/
theorem C5_cli_overrides_defaults (a : Args) (dfe : Bool)
    (d : LaunchConfig) (n : Nat) (h : a.num_processes = some n) :
    (resolveDefaults a dfe d).1.num_processes = some n
    ∧ ((a.multi_gpu = true ∨ a.tpu = true) →
        (resolveDefaults a dfe d).1.multi_gpu = a.multi_gpu
        ∧ (resolveDefaults a dfe d).1.tpu = a.tpu)
    ∧ (a.fp16 = true → (resolveDefaults a dfe d).1.fp16 = true) := by
  obtain ⟨cf, mg, tp, fp, np, ts, tsa, ip, port, nm, mr⟩ := a
  replace h : np = some n := h
  subst h
  cases mg <;> cases tp <;> cases fp <;>
    by_cases hcfg : (cf.isSome || dfe) = true <;>
      simp [resolveDefaults, hcfg]

/-- Witness for C5: a CLI process count of 4 survives a persisted default
of 4 processes in multi-GPU mode. -/
theorem C5_cli_overrides_defaults_witness :
    (resolveDefaults simpleArgs true testConfig).1.num_processes = some 4
    ∧ ((simpleArgs.multi_gpu = true ∨ simpleArgs.tpu = true) →
        (resolveDefaults simpleArgs true testConfig).1.multi_gpu =
          simpleArgs.multi_gpu
        ∧ (resolveDefaults simpleArgs true testConfig).1.tpu =
          simpleArgs.tpu)
    ∧ (simpleArgs.fp16 = true →
        (resolveDefaults simpleArgs true testConfig).1.fp16 = true) :=
  C5_cli_overrides_defaults simpleArgs true testConfig 4 rfl

/-- C6: with no explicit config file and no default config file present,
an unset process count resolves to 1 and the mode resolves to the
single-process strategy. -/
theorem C6_no_config_defaults (a : Args) (d : LaunchConfig)
    (h1 : a.config_file = none) (h2 : a.num_processes = none)
    (h3 : a.multi_gpu = false) (h4 : a.tpu = false) :
    (resolveDefaults a false d).1.num_processes = some 1
    ∧ selectStrategy (resolveDefaults a false d).1 = Strategy.simple := by
  obtain ⟨cf, mg, tp, fp, np, ts, tsa, ip, port, nm, mr⟩ := a
  replace h1 : cf = none := h1
  replace h2 : np = none := h2
  replace h3 : mg = false := h3
  replace h4 : tp = false := h4
  subst h1 h2 h3 h4
  simp [resolveDefaults, selectStrategy]

/-- Witness for C6 at a concrete unset invocation. -/
theorem C6_no_config_defaults_witness :
    (resolveDefaults unsetArgs false testConfig).1.num_processes = some 1
    ∧ selectStrategy (resolveDefaults unsetArgs false testConfig).1 =
        Strategy.simple :=
  C6_no_config_defaults unsetArgs testConfig rfl rfl rfl rfl

/-- C7: when a config file is loaded (explicit path or default file
present) carrying distributed type multi-GPU and the CLI set neither mode
flag, dispatch selects the multi-accelerator strategy; and for every
argument record exactly one of the three strategies is selected. -/
theorem C7_config_selects_multi_gpu (a : Args) (dfe : Bool)
    (d : LaunchConfig)
    (h1 : (a.config_file.isSome || dfe) = true)
    (h2 : a.multi_gpu = false) (h3 : a.tpu = false)
    (h4 : d.distributed_type = DistributedType.MULTI_GPU) :
    selectStrategy (resolveDefaults a dfe d).1 = Strategy.multiGpu
    ∧ ∀ b : Args,
        (selectStrategy b = Strategy.multiGpu
          ∧ selectStrategy b ≠ Strategy.tpuStrat
          ∧ selectStrategy b ≠ Strategy.simple)
        ∨ (selectStrategy b ≠ Strategy.multiGpu
          ∧ selectStrategy b = Strategy.tpuStrat
          ∧ selectStrategy b ≠ Strategy.simple)
        ∨ (selectStrategy b ≠ Strategy.multiGpu
          ∧ selectStrategy b ≠ Strategy.tpuStrat
          ∧ selectStrategy b = Strategy.simple) := by
  constructor
  · obtain ⟨cf, mg, tp, fp, np, ts, tsa, ip, port, nm, mr⟩ := a
    replace h1 : (cf.isSome || dfe) = true := h1
    replace h2 : mg = false := h2
    replace h3 : tp = false := h3
    subst h2 h3
    cases np <;> cases fp <;>
      simp [resolveDefaults, h1, h4, selectStrategy]
  · intro b
    unfold selectStrategy
    by_cases hm : b.multi_gpu = true
    · simp [hm]
    · by_cases ht : b.tpu = true <;> simp [hm, ht]

/-- Witness for C7: a flagless invocation with the default config file
present and a persisted multi-GPU config dispatches to the multi-GPU
strategy. -/
theorem C7_config_selects_multi_gpu_witness :
    selectStrategy (resolveDefaults simpleArgs true testConfig).1 =
      Strategy.multiGpu :=
  (C7_config_selects_multi_gpu simpleArgs true testConfig rfl rfl rfl
    rfl).1

/-- C2: evaluation of the code at the concrete multi-node invocation
(8 processes over 2 machines, rank 0, coordinator 10.0.0.1:29500): the
coordinator port 29500 is placed under the `--node_rank` flag — that flag
occurs twice and no distinct `--master_port` flag occurs anywhere — and
the total process count 8 is passed under `--nproc_per_node` before the
per-node count 4. -/
theorem C2_port_reuses_node_rank_flag :
    (multi_gpu_cmd "/usr/bin/python3" multiNodeArgs).getD [] =
      ["/usr/bin/python3", "-m", "torch.distributed.launch",
       "--nproc_per_node", "8", "--nproc_per_node", "4",
       "--nnodes", "2", "--node_rank", "0",
       "--master_addr", "10.0.0.1", "--node_rank", "29500",
       "train.py", "--epochs", "3"]
    ∧ ((multi_gpu_cmd "/usr/bin/python3" multiNodeArgs).getD []).count
        "--node_rank" = 2
    ∧ ((multi_gpu_cmd "/usr/bin/python3" multiNodeArgs).getD []).contains
        "--master_port" = false := by
  refine ⟨rfl, ?_, ?_⟩ <;> decide
